import Mathlib

/-!
Shallow embedding of the Waves USDT toolkit
(src/tools/crypto/waves/waves.py, class WavesUsdtTools) together with its
static token table (src/tools/crypto/waves/tokens.py).

Modelling conventions:
- Python numbers (ints and floats) are modelled as exact rationals; the
  idealisation replaces binary floating point by real arithmetic.
- Python string operations used by the code (upper, lower, startswith) are
  modelled by explicit character-list functions, faithful on the ASCII data
  this toolkit handles.
- Network interactions are inputs of the model: each function takes the
  outcome of every query it performs as an explicit argument
  (an Except value: error = the underlying call raised).
- A raised Python exception is an Except.error result; a function that
  returns normally is an Except.ok result.  A mutating operation yields a
  Submission record describing the signed invocation it sends to the
  transaction-submission endpoint; an Except.error result therefore means
  the operation ended with zero calls to that endpoint.
-/

/-- Model of Python str.upper, faithful for ASCII strings. -/
def pyUpper (s : String) : String := String.mk (s.data.map Char.toUpper)

/-- Model of Python str.lower, faithful for ASCII strings. -/
def pyLower (s : String) : String := String.mk (s.data.map Char.toLower)

/-- Model of Python s.startswith(pre). -/
def pyStartsWith (s pre : String) : Bool := List.isPrefixOf pre.data s.data

/-- Model of Python int(x) on a float: truncation toward zero. -/
def pyInt (q : ℚ) : ℤ := if q < 0 then ⌈q⌉ else ⌊q⌋

/-- JSON values, as produced by json.loads. -/
inductive JVal where
  | null : JVal
  | bool (b : Bool) : JVal
  | num (q : ℚ) : JVal
  | str (s : String) : JVal
  | arr (xs : List JVal) : JVal
  | obj (fields : List (String × JVal)) : JVal

/-- First value bound to a key in a JSON object field list (Python dict lookup). -/
def jlookup (fields : List (String × JVal)) (k : String) : Option JVal :=
  match fields with
  | [] => none
  | (k2, v) :: rest => if k2 = k then some v else jlookup rest k

/-- Python truthiness of a JSON value. -/
def jtruthy : JVal → Bool
  | .null => false
  | .bool b => b
  | .num q => q != 0
  | .str s => s != ""
  | .arr xs => !xs.isEmpty
  | .obj fs => !fs.isEmpty

/-- Model of Python substring containment (needle in haystack for strings). -/
def strContainsSub (s pat : String) : Bool := (s.splitOn pat).length != 1

/-- Test whether a JSON value equals the string k (Python == between a
string and a JSON value). -/
def jvalIsStr (v : JVal) (k : String) : Bool :=
  match v with
  | .str s => s = k
  | _ => false

/-- Model of the Python expression (k in v) on a JSON value: key lookup on
dicts, membership on lists, substring test on strings, TypeError (the error
case) on the remaining types. -/
def pyIn (v : JVal) (k : String) : Except String Bool :=
  match v with
  | .obj fs => .ok (jlookup fs k).isSome
  | .arr xs => .ok (xs.any (fun x => jvalIsStr x k))
  | .str s => .ok (strContainsSub s k)
  | _ => .error "TypeError: argument not iterable"

/-- Conversion of a raw base-unit quantity to human units by the asset's
decimal precision, as performed by the balance getters
(balance / 10 ** decimals). -/
def base_to_human (q : ℤ) (d : ℕ) : ℚ := (q : ℚ) / 10 ^ d

/-!
Contract query client and market aggregation
(evaluate_smart_contract and get_puzzle_lend_markets).

The network outcome of one evaluation request is an input of the model:
Except.error means the HTTP call raised, Except.ok v means the response
parsed to the JSON value v.  The second json.loads, applied to the string
found under result.value, is abstracted by a parse function passed in as
the loads argument (none models a JSONDecodeError).
-/

/-- Model of WavesUsdtTools.evaluate_smart_contract.  On a transport error
it raises WavesInvalidResponse; on a response that contains an error (the
Python test is the expression (error in result)) it raises
WavesInvalidResponse; otherwise it returns the parsed response. -/
def evaluate_smart_contract (resp : Except String JVal) : Except String JVal :=
  match resp with
  | .error e => .error ("Network error: " ++ e)
  | .ok v =>
    match pyIn v "error" with
    | .error e => .error ("Unexpected error: " ++ e)
    | .ok true => .error "API returned error"
    | .ok false => .ok v

/-- One iteration of the market loop in get_puzzle_lend_markets.
Except.error is a Python exception escaping the loop body (it aborts the
whole aggregation); Except.ok none is a skipped index (a continue or the
log-and-skip branch); Except.ok (some m) is one successfully parsed
market m.  Mirrors, in order: the evaluate call; the isinstance-dict and
result-key check; the attribute access on the result field (AttributeError
when that field is not a dict); the truthiness test on the value field;
the inner json.loads (TypeError when the value is not a string); and the
final dict-without-error-key check. -/
def processMarket (loads : String → Option JVal) (resp : Except String JVal) :
    Except String (Option JVal) :=
  match evaluate_smart_contract resp with
  | .error e => .error e
  | .ok v =>
    match v with
    | .obj fs =>
      match jlookup fs "result" with
      | none => .ok none
      | some r =>
        match r with
        | .obj rfs =>
          match jlookup rfs "value" with
          | none => .ok none
          | some pv =>
            if !jtruthy pv then .ok none
            else
              match pv with
              | .str s =>
                match loads s with
                | none => .ok none
                | some pd =>
                  match pd with
                  | .obj pfs =>
                    if (jlookup pfs "error").isSome then .ok none else .ok (some pd)
                  | _ => .ok none
              | _ => .error "TypeError: the JSON object must be str, bytes or bytearray"
        | _ => .error "AttributeError: object has no attribute get"
    | _ => .ok none

/-- Left-to-right accumulation of the market loop: the first escaping
exception aborts the aggregation, skipped indices contribute nothing, and
parsed markets are collected in iteration order. -/
def collectMarkets (loads : String → Option JVal) :
    List (Except String JVal) → Except String (List JVal)
  | [] => .ok []
  | r :: rs =>
    match processMarket loads r with
    | .error e => .error e
    | .ok none => collectMarkets loads rs
    | .ok (some m) =>
      match collectMarkets loads rs with
      | .error e => .error e
      | .ok ms => .ok (m :: ms)

/-- Model of WavesUsdtTools.get_puzzle_lend_markets: iterates exactly the
market indices 0, 1, 2, 3, 4, collecting parsed markets; any exception in
the loop is caught by the surrounding handler and turned into an error
result; if nothing was collected the error result for no valid markets is
returned. -/
def get_puzzle_lend_markets (loads : String → Option JVal)
    (r0 r1 r2 r3 r4 : Except String JVal) : Except String (List JVal) :=
  match collectMarkets loads [r0, r1, r2, r3, r4] with
  | .error e => .error e
  | .ok [] => .error "No valid markets found"
  | .ok ms => .ok ms

/-!
Structured view of a valid market payload, used by
get_puzzle_lend_usdt_pools.  A raw quantity is always paired with its
decimal precision.
-/

/-- A raw on-chain quantity together with its decimal precision, as the
market JSON reports supplyApy and supply figures. -/
structure RawQuantity where
  quantity : ℚ
  decimals : ℕ

/-- The supply block of one asset in a market payload: identifier, display
name, and the raw supplied quantity. -/
structure SupplyBlock where
  id : String
  name : String
  quantity : ℚ
  decimals : ℕ

/-- One asset entry of a market payload. -/
structure MarketAsset where
  supply : SupplyBlock
  supplyApy : RawQuantity

/-- One valid market payload, as consumed by the USDT filter. -/
structure Market where
  index : ℤ
  name : String
  address : String
  active : Bool
  assets : List MarketAsset

/-- One row of the USDT pool listing built by get_puzzle_lend_usdt_pools. -/
structure UsdtAssetInfo where
  market_index : ℤ
  market_name : String
  market_address : String
  market_active : Bool
  market_supply_apy : ℚ
  asset_id : String
  asset_name : String
  asset_supply : ℚ

/-- The identifier of the legacy USDT token that the filter excludes. -/
def oldUsdtAssetId : String := "34N9YcEETLWn93qYQ64EsP1x89tSruJU44RrEMSXXEPJ"

/-- The filter applied to each asset of each market: the supply name starts
with USDT and the supply id is not the legacy USDT identifier. -/
def isUsdtAsset (a : MarketAsset) : Bool :=
  pyStartsWith a.supply.name "USDT" && a.supply.id != oldUsdtAssetId

/-- The row built for one matching asset of one market.  The supply APY is
the raw quantity divided by 10 ^ (decimals - 2), with the exponent taken in
ℤ exactly as Python computes 10 ** (decimals - 2); the asset supply is the
raw quantity divided by 10 ^ decimals. -/
def mkUsdtAssetInfo (m : Market) (a : MarketAsset) : UsdtAssetInfo where
  market_index := m.index
  market_name := m.name
  market_address := m.address
  market_active := m.active
  market_supply_apy := a.supplyApy.quantity / (10 : ℚ) ^ ((a.supplyApy.decimals : ℤ) - 2)
  asset_id := a.supply.id
  asset_name := a.supply.name
  asset_supply := a.supply.quantity / (10 : ℚ) ^ a.supply.decimals

/-- Model of the filtering loop of WavesUsdtTools.get_puzzle_lend_usdt_pools
on a list of valid market payloads: for every market, in order, every asset
passing the USDT filter contributes one row. -/
def get_puzzle_lend_usdt_pools (markets : List Market) : List UsdtAssetInfo :=
  markets.flatMap (fun m => (m.assets.filter isUsdtAsset).map (mkUsdtAssetInfo m))

/-!
Balance and position helpers.  Every network query outcome is an input:
Except.error e stands for the underlying pywaves call raising with message
e, Except.ok for a successful query.
-/

/-- Model of WavesUsdtTools.get_wallet_waves_balance on the configured
address.  The input is the raw wavelet balance query outcome; the result is
divided by 10 ^ 8, and any failure is swallowed and reported as balance 0
(the deliberate soft-failure convention). -/
def get_wallet_waves_balance (balanceQuery : Except String ℤ) : ℚ :=
  match balanceQuery with
  | .ok b => base_to_human b 8
  | .error _ => 0

/-- Model of WavesUsdtTools.get_wallet_token_balance on the configured
address.  For the native token (asset id equal to waves after lowering) the
waves balance query is used with 8 decimals; otherwise the token query
yields the raw balance together with the asset's decimals.  Any failure is
swallowed and reported as balance 0 (soft failure). -/
def get_wallet_token_balance (asset_id : String)
    (wavesQuery : Except String ℤ) (tokenQuery : Except String (ℤ × ℕ)) : ℚ :=
  if pyLower asset_id = "waves" then
    match wavesQuery with
    | .ok b => base_to_human b 8
    | .error _ => 0
  else
    match tokenQuery with
    | .ok (b, d) => base_to_human b d
    | .error _ => 0

/-!
Transaction builder and submitter.  The mutating operations are modelled up
to the moment they hand a signed invocation to the chain: an Except.ok
result carries the Submission record describing exactly that invocation,
and an Except.error result is a raised WavesException, reached with zero
calls to the transaction-submission endpoint.
-/

/-- The raised failures of the mutating operations, with the quantities the
corresponding exception messages report. -/
inductive WErr where
  | noSigningKey
  | insufficientBalance (label : String) (required available : ℚ)
  | positionNotFound (asset pool : String)
  | insufficientSuppliedBalance (requested available : ℚ)
  | quoteUnavailable (msg : String)
  | raised (msg : String)

/-- A signed contract invocation as handed to the submission endpoint:
dApp address, function name, typed parameters, and payments in base
units. -/
structure Submission where
  dapp : String
  fn : String
  params : List (String × JVal)
  payments : List (Option String × ℤ)

/-- A Python number as it appears in a payment dict: an int is passed
through unchanged, a float gets converted to base units. -/
inductive PyNum where
  | int (n : ℤ)
  | float (q : ℚ)

/-- Payment-amount normalisation in WavesUsdtTools.invoke_script: for the
native asset (assetId WAVES or absent) a float amount is scaled by 10 ^ 8;
for any other asset the asset's decimals are resolved (a failed resolution
raises WavesInvalidAsset) and a float amount is scaled by them; integer
amounts pass through unchanged. -/
def process_payment (lookup : String → Except String ℕ) :
    Option String × PyNum → Except String (Option String × PyNum)
  | (none, amount) =>
    .ok (none, match amount with
               | .float q => .int (pyInt (q * 10 ^ (8 : ℕ)))
               | .int n => .int n)
  | (some aid, amount) =>
    if aid = "WAVES" then
      .ok (some aid, match amount with
                     | .float q => .int (pyInt (q * 10 ^ (8 : ℕ)))
                     | .int n => .int n)
    else
      match lookup aid with
      | .error e => .error ("Failed to process payment asset " ++ aid ++ ": " ++ e)
      | .ok d =>
        .ok (some aid, match amount with
                       | .float q => .int (pyInt (q * 10 ^ d))
                       | .int n => .int n)

/-- Normalisation of a whole payment list, left to right; the first failing
asset resolution raises. -/
def process_payments (lookup : String → Except String ℕ) :
    List (Option String × PyNum) → Except String (List (Option String × PyNum))
  | [] => .ok []
  | p :: ps =>
    match process_payment lookup p with
    | .error e => .error e
    | .ok p2 =>
      match process_payments lookup ps with
      | .error e => .error e
      | .ok ps2 => .ok (p2 :: ps2)

/-- The provider's reply to a submitted invocation, as the pywaves
invokeScript call returns it: optional transaction id and timestamp, and an
error message exactly when the provider reports a transaction-level
error. -/
structure TxResponse where
  id : Option String
  timestamp : Option ℤ
  error : Option String

/-- The result record WavesUsdtTools.invoke_script builds from a provider
reply. -/
structure TxInfo where
  success : Bool
  transaction_id : String
  fee : ℚ
  error : Option String
  timestamp : ℤ

/-- Model of WavesUsdtTools.invoke_script.  Raises (Except.error) when no
signing key is configured, when a payment asset fails to resolve, or when
the submission call itself raises; otherwise returns the result record: its
success flag is true exactly when the provider reply carries no error key,
and a provider-reported error message is copied into the record verbatim
without raising. -/
def invoke_script (hasKey : Bool) (lookup : String → Except String ℕ)
    (payments : List (Option String × PyNum)) (tx_fee : ℤ)
    (submitResult : Except String TxResponse) : Except String TxInfo :=
  if !hasKey then .error "Private key not available for transaction signing"
  else
    match process_payments lookup payments with
    | .error e => .error e
    | .ok _ =>
      match submitResult with
      | .error e => .error ("Failed to invoke script: " ++ e)
      | .ok tx =>
        .ok { success := tx.error.isNone
              transaction_id := tx.id.getD "Unknown"
              fee := base_to_human tx_fee 8
              error := tx.error
              timestamp := tx.timestamp.getD 0 }

/-- Model of WavesUsdtTools.puzzle_lend_supply_assets up to submission.
Checks, in order: the signing key; for the native asset, that the token
balance covers amount plus fee; for any other asset, that the token balance
covers the amount and, separately, that the native balance covers the fee.
All balances come from the soft-failure getters above.  Only after all
checks pass is the asset's decimal precision resolved and the single-payment
supply invocation built, with the amount floored to a whole token count
before scaling. -/
def puzzle_lend_supply_assets (hasKey : Bool) (payment_amount : ℚ)
    (payment_asset_id : String) (pool_address : String) (tx_fee : ℤ)
    (wavesQuery : Except String ℤ) (tokenQuery : Except String (ℤ × ℕ))
    (decimalsQuery : Except String ℕ) : Except WErr Submission :=
  if !hasKey then .error .noSigningKey
  else
    let user_balance := get_wallet_token_balance payment_asset_id wavesQuery tokenQuery
    let tx_fee_in_waves := base_to_human tx_fee 8
    if pyLower payment_asset_id = "waves" then
      if user_balance < payment_amount + tx_fee_in_waves then
        .error (.insufficientBalance "WAVES" (payment_amount + tx_fee_in_waves) user_balance)
      else
        match decimalsQuery with
        | .error e => .error (.raised ("Failed to stake in Puzzle pool: " ++ e))
        | .ok d =>
          .ok { dapp := pool_address, fn := "supply", params := [],
                payments := [(some payment_asset_id, ⌊payment_amount⌋ * 10 ^ d)] }
    else
      if user_balance < payment_amount then
        .error (.insufficientBalance payment_asset_id payment_amount user_balance)
      else
        let waves_balance := get_wallet_waves_balance wavesQuery
        if waves_balance < tx_fee_in_waves then
          .error (.insufficientBalance "WAVES fee" tx_fee_in_waves waves_balance)
        else
          match decimalsQuery with
          | .error e => .error (.raised ("Failed to stake in Puzzle pool: " ++ e))
          | .ok d =>
            .ok { dapp := pool_address, fn := "supply", params := [],
                  payments := [(some payment_asset_id, ⌊payment_amount⌋ * 10 ^ d)] }

/-- One supplied position as get_puzzle_lend_wallet_supply reports it:
market address, asset id, and the supplied amount in human units. -/
structure SuppliedPosition where
  market_address : String
  asset_id : String
  wallet_supply : ℚ

/-- The position-matching test of the withdraw loop: the exact
(pool address, asset id) pair. -/
def positionMatches (pool_address asset_id : String) (p : SuppliedPosition) : Bool :=
  p.market_address == pool_address && p.asset_id == asset_id

/-- Model of WavesUsdtTools.puzzle_lend_withdraw_assets up to submission.
Checks, in order: the signing key; that the native balance (soft-failure
getter) covers the fee; then looks up the first supplied position matching
the exact (pool, asset) pair in the position list (a failed position query
raises).  Absence of a match raises position-not-found; a match with a
supplied amount below the requested amount raises
insufficient-supplied-balance.  Only then is the withdraw invocation built,
with typed parameters and no payments. -/
def puzzle_lend_withdraw_assets (hasKey : Bool) (withdraw_amount : ℚ)
    (asset_id : String) (pool_address : String) (tx_fee : ℤ)
    (wavesQuery : Except String ℤ)
    (positionsQuery : Except String (List SuppliedPosition))
    (decimalsQuery : Except String ℕ) : Except WErr Submission :=
  if !hasKey then .error .noSigningKey
  else
    let tx_fee_in_waves := base_to_human tx_fee 8
    let waves_balance := get_wallet_waves_balance wavesQuery
    if waves_balance < tx_fee_in_waves then
      .error (.insufficientBalance "WAVES fee" tx_fee_in_waves waves_balance)
    else
      match positionsQuery with
      | .error e => .error (.raised ("Failed to withdraw from Puzzle pool: " ++ e))
      | .ok positions =>
        match positions.find? (positionMatches pool_address asset_id) with
        | none => .error (.positionNotFound asset_id pool_address)
        | some p =>
          if p.wallet_supply < withdraw_amount then
            .error (.insufficientSuppliedBalance withdraw_amount p.wallet_supply)
          else
            match decimalsQuery with
            | .error e => .error (.raised ("Failed to withdraw from Puzzle pool: " ++ e))
            | .ok d =>
              .ok { dapp := pool_address, fn := "withdraw",
                    params := [("string", .str asset_id),
                               ("integer", .num ((⌊withdraw_amount⌋ * 10 ^ d : ℤ) : ℚ))],
                    payments := [] }

/-!
Static token registry (src/tools/crypto/waves/tokens.py) and name
resolution.  The table keeps the source's entries in their original
order as (asset identifier, display name) pairs; the category tags of the
source table are not consulted by any resolution logic and are omitted.
-/

/-- The static token table, in source iteration order. -/
def TOKENS : List (String × String) := [
  ("AP4Cb5xLYGH6ZigHreCZHoXpQTWDkPsG2BHqfDUx6taJ", "ROME"),
  ("WAVES", "WAVES"),
  ("6DD42Rvu7Dd9Wp7g5LGAmLzuGt49uCqyRRyjy1JKaCrA", "PL-WAVES"),
  ("5wmZkXMNgtQCPhkrDPwJ2JxjRNQGFr1NLkwx4kBoDP74", "PL-USDT"),
  ("BPkBU8usNQoveGFmEyBLL1XzsG6BLXnmzMYjpvNxjCAG", "PL-ETH"),
  ("DG2xFkPdDwKUoBkzGAhQtLpSGzfXLiCYPEzeKH2Ad24p", "XTN."),
  ("HEB8Qaw9xrWpWs8tHsiATYGBWDBtP2S7kcPALrMu43AS", "Puzzle"),
  ("Atqv59EYzjFGuitKVnMRk6H8FukjoV3ktPorbEys25on", "WX Network"),
  ("vAYvjoLheNuvi2wRdQYK9NUjJ6ZQ5EkAtx7jy36rK13", "SBT "),
  ("DcAbWMXrfMeooG1BrZ9ipiseFSVm7zxTs1XZKRp6DVeZ", "AXLY"),
  ("9wc3LXNA4TEBsXyKtoLE9mrbDD7WMHXvXrCjZvabLAsi", "USDT-ERC20-PPT"),
  ("DaErMEp76HtuvbbSYxDwLovRimaAwtEyQGFeHLQ3UWwh", "USDT-TRC20-PPT"),
  ("A81p1LTRyoq2rDR2TNxB2dWYxsiNwCSSi8sXef2SEkw", "USDT-BSC-PPT"),
  ("Cu6FRaNphvp1iwmnyVRAvcnyVgLEwBGwSvGQrVsThAAD", "USDT-POLY-PPT"),
  ("G5WWWzzVsWRyzGf32xojbnfp7gXbWrgqJT8RcVWEfLmC", "USDT-PPT"),
  ("3ayH3PhWMkhFsySsUVcC8BvFf1QyxGB5BZuTPyVtmP4v", "USDC-PPT"),
  ("2Fge5HEBRD3XTeg7Xg3FW5yiB9HVJFQtMXiWMQo72Up6", "WBTC-ERC20-PPT"),
  ("3VuV5WTmDz47Dmdn3QpcYjzbSdipjQE4JMdNe1xZpX13", "ETH-Ethereum-PPT"),
  ("Ajso6nTTjptu2UHLx6hfSXVtHFtRBJCkKYd5SAyj7zf5", "PLUTO"),
  ("6phK22ztGBW127gUFmdMEHKB3CVd6ZhWox2WtwJkbqTq", "EAST"),
  ("HYogWffUjS8Uw4bYA1Dn3qrGmJerMqkf139aJcHhk8yq", "WAVESDLP"),
  ("HGgabTqUS8WtVFUJzfmrTDMgEccJuZLBPhFgQFxvnsoW", "USDC-ERC20-PPT"),
  ("4BKKSp6NoNcrFHyorZogDyctq1fq6w7114Ym1pw6HUtC", "USDC-BSC-PPT"),
  ("DnsgQ23DYGgRDxUwjmZY4sEZ4QaRtUdLVuzDPBdWJo7G", "NEXT WEEK PEPE"),
  ("GAzAEjApmjMYZKPzri2g2VUXNvTiQGF7KDYZFFsP3AEq", "PETE"),
  ("7scqyYoVsNrpWbTAc78eRqNVcYLxMPzZs8EQfX7ruJAg", "L2MP"),
  ("4KvfJBzghmotV7MPWAoojerSbPud8ZgKYM4S3hvgssL8", "ACRES"),
  ("7E26JWe8XYXf4jNxH7CDAdFUjTg5fCTChHoCuZmfUoy1", "WLGOLD"),
  ("2thsACuHmzDMuNezPM32wg9a3BwUzBWDeSKakgz3cw21", "POWER"),
  ("3SjxA2YLdfF9fTRbzLm9xFn27C6MW34W1YsdJ6Axefns", "BURN-XTN"),
  ("73tY3E6Gd5AWYmsuq8m8Kek7KnJNAYyS3GoveTbc6jCi", "WHIRLPOOL"),
  ("GdrDHazRGcCYeCgDEZzLpsZ3E7jmrxYB7EDUiGfiVAr1", "PZ burn-xtn"),
  ("2r5xCUHFLQVHKNC5k6qqRnDTT485KvKwAtbNtM2Wy4wW", "PZ burnxtnppt"),
  ("AE12ZN9PQyPKHR5CqR2Qau31JqS68rZbVYxaJbRM8kFj", "PZ bb"),
  ("9dbpSr8d18qWQxn5fJJSS1LLQ8CmSZ6gYmjuPRzg3RBM", "PZ oldgold"),
  ("XjdJKWtPYCz585QB7LnxDP76UGRukazedDubUx9DHQH", "PZ we"),
  ("9MKixRt9rNRyaJCT2pexbXkuvpZBdJREdTU36bGit8iw", "PZ megapete"),
  ("6bZbRmou7M7wXBunMXQnZ4Rm66HxZF3KfMEiFwk3wmnA", "PZ 5pool"),
  ("EA7siGMSTxz6EtdpkCiVWQHupFT5N7UbvQrW9kvxCE42", "PZ units"),
  ("6TXFMpr6rG4tr2CuPmVRq1NsjgPLJ59s2VMVnL1ZLtpR", "WIND"),
  ("EW1uGLVo21Wd9i2Rhq8o4VKDTCQTGCGXE8DqayHGrLg8", "BTCB-BSC-PPT"),
  ("B62hrgQAq41gB5ohyRdEvdwTwzgqiet4rxmEhvdLmEpX", "ORIENT"),
  ("HqieNeUxTqzMufgF49QvK99h2ShsAuJAGYKvYZrvRejN", "ANOTE"),
  ("5Lhv8uKnvGxA2cjbFXXKZFASk1cAFp9dRWkmLYhULtSX", "FUDT"),
  ("8caLEWCK2PWtJ9d3Qw7xxoBqV9p2fxpRLZCbrDAg6A5U", "WBriacash"),
  ("9cU6nGhCwKR4c14cVkyoVmG8fNPZEBFKEQedjDFPN7vo", "PZ PZ 777"),
  ("Fz1S3rRAF8RaBoFSKoohDxzfPBX4Jj8mCTFn1Mab8H3x", "Sasha-X"),
  ("3TEr6AczV2N9Etz6Q76dDnv1kv4C7L5vR2oe7dnrLbii", "gxWX"),
  ("34N9YcEETLWn93qYQ64EsP1x89tSruJU44RrEMSXXEPJ", "USDT"),
  ("6XtHjpXbs9RRJP2Sr9GUyVqzACcby9TkThHXnjVC5CDJ", "USD Coin"),
  ("8LQW8f7P5d5PZM7GtZEBgaqRPGSzS3DfPuiXrURJ4AJS", "WBTC"),
  ("YiNbofFzC17jEHHCMwrRcpy9MrrjabMMLZxg8g5xmf7", "sWAVES"),
  ("C1iWsKGqLwjHUndiQ7iXpdmPum9PeCDFfyXBdJJosDRS", "Duck Egg"),
  ("HZk1mbfuJpmxU1Fs4AX5MWLVYtctsNcg6e2C6VKqK8zk", "Litecoin"),
  ("66a1br3BrkoaJgP7yEar9hJcSTvJPoH6PYBLqscXcMGo", "BNB-BSC-PPT"),
  ("5UYBPpq4WoU5n4MwpFkgJnW3Fq4B1u3ukpK33ik4QerR", "WBN"),
  ("At8D6NFFpheCbvKVnjVoeLL84Eo8NZn6ovManxfLaFWL", "SURF"),
  ("HkYbq1oqnfBnicWwXBRJZCxjM85zAVsQMdHvpQbDCRBo", "WXB Token"),
  ("8t4DPWTwPzpatHA9AkTxWAB47THnYzBsDnoY7fQqbG91", "Tsunami Token"),
  ("q2xCQyLDKXLzxcMY4PKuFDVknaLoMpq4o57pjJtLMe7", "ThousandToken"),
  ("8DLiYZjo3UUaRBTHU7Ayoqg4ihwb6YH1AfXrrhdjQ7K1", "BUSD"),
  ("4kXACcTnNJa14Zbs19irgg48G6jR5nWp8SgPndFWY5av", "WART"),
  ("H6CwbwXMRKRw6jb1dRUMVs2N6Sdg2wQcXPRaRkjZSjYU", "NGNT"),
  ("3KhNcHo4We1G5EWps7b1e5DTdLgWDzctc8S6ynu37KA", "Curve DAO Token"),
  ("8zUYbdB8Q6mDhpcXYv52ji8ycfj4SDX4gJXS7YY3dA4R", "WDAI"),
  ("4YmM7mj3Av4DPvpNpbtK4jHbpzYDcZuY6UUnYpqTbzLj", "WUNI"),
  ("52PbiwUPKxxvKBKXxhAipecAvj4z5aETVFpg5mKkN6ZP", "VLAD"),
  ("2bbGhKo5C31iEiB4CwGuqMYwjD7gCA9eXmm51fe2v8vT", "LINK"),
  ("HcHacFH51pY91zjJa3ZiUVWBww54LnsL4EP3s7hVGo9L", "MATIC"),
  ("BLRxWVJWaVuR2CsCoTvTw2bDZ3sQLeTbCofcJv7dP5J4", "WYFI"),
  ("bPWkA3MNyEr1TuDchWgdpqJZhGhfPXj7dJdr3qiW2kD", "TurtleNetwork"),
  ("GVxGPBtgVWMW1wHiFnfaCakbJ6sKgZgowJgW5Dqrd7JH", "SHI"),
  ("4GZH8rk5vDmMXJ81Xqfm3ovFaczqMnQ11r7aELiNxWBV", "WFTM"),
  ("eCNH1aqUnocub8PbNsxLNvZWGeVE98L2Crw3cGY6Gq2", "MUNA"),
  ("DUk2YTxhRoAqMJLus4G2b3fR8hMHVh6eiyFx5r29VR6t", "Neutrino EUR"),
  ("DHgwrRvVyqJsepd32YbBqUeDH4GJ1N984X8QoekjgH8J", "WavesCommunity"),
  ("4LHHvYGNKJUg5hj65aGD5vgScvCBmLpdRFtjokvCjSL8", "WEST"),
  ("7LMV3s1J4dKpMQZqge5sKYoFkZRLojnnU49aerqos4yg", "ENNO"),
  ("9sQutD5HnRvjM1uui5cVC4w9xkMPAfYEV8ymug3Mon2Y", "SIGN"),
  ("Ehie5xYpeN8op1Cctc6aGUrqx8jq3jtf1DSjXDbfm7aT", "SWOP"),
  ("DSbbhLsSTeDg5Lsiufk2Aneh3DjVqJuPr2M9uU1gwy5p", "VIRES"),
  ("474jTeYx2r2Va35794tCScAXWJG9hU2HcgxzMowaZUnu", "WETH"),
  ("A2hcw6RV23Fc8Y8FNfV35Sq5QeS9Tgp6n8hbrESiRvXX", "SHEG"),
  ("usUeJwSpvghP5FR6jE9X4fUJbgXyxXnAezSgbzoMA8K", "TEAM DUXPLORER"),
  ("FPzcaiEjyG6syoXLY1aghWdPwExvRezGbPXjmL3Gcofw", "TEAM MATH"),
  ("9mFbBseP3RSC2veLrBgiLJMXDjahwBiH44WnqMfdkgid", "TEAM TURTLE"),
  ("E4cL4MDRTPz9Wo1hHkxQv4ZzpxVL5136JVaki4wGz2QZ", "TEAM EGGSEGGS"),
  ("5JQ8yUY4vnB19s4bXSGVYsNEyA9Bag6jbMtVEgFHvYM7", "TEAM LATAM"),
  ("J4iWJS2kGmAqLC4dYFuHvmqXK1E6rBJaRTA6nd1VmFkj", "TEAM FOMO"),
  ("2x8vsNgrBgLq9GWpnTNSVXTGq3cMLSvWWepR8CX36fVZ", "TEAM MUNDOCRYPTO"),
  ("6pHc1PyBcXyS74eBEo95V3ecQvhAypL9RfsUUKtHDUq2", "TEAM EGGPOINT"),
  ("6muMrLavuvuSZXgy1cQrvYm92rGbprNXGdj6Bg7HAtTV", "TEAM ENDO"),
  ("6xxMPcvHneBvZk7p82oUdQw4J3F9bsFgtm7YYXQSEDx", "TEAM MARVIN"),
  ("J3dRSWWyRoX55YuuXQhBa2uZ4bUczkqSFC94VZeCoWKA", "TEAM IDO"),
  ("DAGQvqQg4F5YTQCQ5JFaVJdZEVoTvecuw2W9ybL5P1hR", "TEAM STREET"),
  ("BwCk5zUMTuYtFFu3euo3g6Fwdk7TALrr5C8wvdzps8R5", "TEAM KOLKHOZ"),
  ("4q9KXJCi9ZbmhttXuLRabd9epgpvowVuyKDuuNdkahdC", "TEAM FORK"),
  ("HK72uehJjkM22phZ5wHhBYxprP3r41eYtk9fYu5uetne", ""),
  ("D4TPjtzpsDEJFS1pUAkvh1tJJJMNWGcSrds9sveBoQka", "RACE"),
  ("F2AKkA513k5yHEJkLsU6vWxCYYk811GpjLhwEv2WGwZ9", "WXUSDNWXLP"),
  ("FuUobp3DcfARzDLcvtVW37i7FvMPvCCpgdcvWke8sBuh", "wxWXUSDN_TCI"),
  ("97zHFp1C3cB7qfvx8Xv5f2rWp9nUSG5UnAamfPcW6txf", "USDTUSDNWXLP"),
  ("2CD44HANZzsdU7yqRsmz7L9eA2Foh4YYMC4azMbaZEj6", "wxUSDTUSDN_TCI"),
  ("EK6N7S38xbtBT3SxAqoGdDLCiX6rojX6G169CnSyuE5", "USDCXTNLP"),
  ("HZKFpNfyPG5gt4D6Nfy1zQSg2Ptmqv932GjNTCyBEeKP", "wxUSDCUSDN_TCI"),
  ("EPhdEfmQaNcHyvDmRGhnLhgcJtKZ2a4k3ZBmKWtAEWyH", "USDCUSDTLP"),
  ("BqPYkaiz7Le6fFu1rjZ54anrpT57EpvyugZCUqrsjXj", "wxUSDCUSDT_TCI"),
  ("E8zHu33GfcNyGLypX77gZiUXfvuZQeaYmiEfsy7VYNwP", "PUZZLEXTNLP"),
  ("Dh9QXSSABE5V6aRfu3mCbDAUokbpE7ER7pbZV6cvyg1A", "wxPUZZLEUSDN_TCI"),
  ("AbunLGErT5ctzVN8MVjb4Ad9YgjpubB8Hqb17VxzfAck", "Waves World"),
  ("3tG9SL7u9X4f8T4N8bqmVmY32eoBSxt5bxYBmT88SJwm", "$MINI"),
  ("2tVLdi5fQXk2JcuDAojhctnDp5B5PZhNMyj5GUpeC3tZ", "VIRES_USDT_LP"),
  ("FSRHtSyXRXQjzQLRtmaqFpBDDCNjY8PU8KNtwoGXVBmr", "VIRES_USDC_LP"),
  ("8KEtor9aSsSj38MknyAE7k1uRThHY9prAXgiE4D7WpyL", "VVUSDNLP"),
  ("6nSpVyNH7yM69eg446wrQR94ipbbcmZMU1ENPwanC97g", "NSBT"),
  ("8wUmN9Y15f3JR4KZfE81XLXpkdgwnqoBNG6NmocZpKQx", "Staked NSBT"),
  ("4CDoUKSAtLTwVTpdxFu6EcbafiCDZUSBXrWGjrAcCPoL", "sNSBT_TCI"),
  ("6jsmMsMfpJWqxSGyxrkTvH5zZyaQd2P6VEY9fBz2T8F", "SPICE"),
  ("5eNgKTbzCXz3GQmhF3YJafYw77QGLXQWa26uZcVRi3uA", "PZ 0777"),
  ("6dFUm2PVMYf2N2oRV1PUwuaDmdTSnj7HS5Eb9rFcKmRR", "PL-PUZZLE"),
  ("2fdzyHvXGCqaz1XA8m9fodemmP9giVBcpe4Jq9F63oFL", "BAI."),
  ("HTaRkjbyQ33UmpPVm839o8psfaHg9R4cStGWH8hCtYqv", "Rome Keeper"),
  ("BzAhuKAem8g3L65hHpQ5thAhDG4fW9MHqCWAt6Zt7ZAV", "PZ MEGAMEME")]

/-- The case-insensitive exact-or-prefix name match of
get_asset_id_by_name: the table entry's display name, uppercased, either
equals the uppercased query or starts with it. -/
def token_name_matches (query name : String) : Bool :=
  pyUpper name == pyUpper query || pyStartsWith (pyUpper name) (pyUpper query)

/-- The search loop over the token table: first matching entry wins, in
table iteration order. -/
def lookup_token (query : String) : List (String × String) → Option String
  | [] => none
  | (aid, nm) :: rest =>
    if token_name_matches query nm then some aid else lookup_token query rest

/-- Model of WavesUsdtTools.get_asset_id_by_name: WAVES, in any case, maps
to the native sentinel directly; any other name is looked up in the static
table. -/
def get_asset_id_by_name (token_name : String) : Option String :=
  if pyUpper token_name = "WAVES" then some "WAVES"
  else lookup_token token_name TOKENS

/-- The token-reference resolution step of puzzle_swap_tokens: an input
shorter than 15 characters is treated as a name and resolved through the
registry (an unresolvable name raises); an input of 15 or more characters
is passed through unchanged as an identifier. -/
def resolve_swap_token (token : String) : Except WErr String :=
  if token.length < 15 then
    match get_asset_id_by_name token with
    | some aid => .ok aid
    | none => .error (.raised ("Could not resolve token name: " ++ token))
  else .ok token

/-!
Puzzle Swap aggregator (puzzle_swap_tokens).  The route-quote response is
modelled by the fields the code reads: whether the payload has an error
key and its value, whether it has a parameters key and its value, and the
optional estimatedOut number.
-/

/-- The fields of a route-quote response consulted by puzzle_swap_tokens.
A field set to none is absent from the response. -/
structure SwapQuote where
  errorField : Option JVal
  parametersField : Option JVal
  estimatedOut : Option ℚ

/-- The dApp address of the Puzzle Swap aggregator contract. -/
def puzzleSwapDapp : String := "3PGFHzVGT4NTigwCKP1NcwoXkodVZwvBuuU"

/-- The minimum acceptable output computed from the estimated output and
the slippage percentage: estimatedOut * (1 - slippagePercent / 100),
truncated to an integer by Python int(). -/
def min_output_amount (estimated_out : ℚ) (slippage_percent : ℚ) : ℤ :=
  pyInt (estimated_out * (1 - slippage_percent / 100))

/-- The quote-processing step of puzzle_swap_tokens (the body of the inner
try block up to the invocation): raises on a truthy error field, raises on
an absent or falsy parameters field, otherwise reads the route parameters,
defaults a missing estimatedOut to 0, and yields the route blob together
with the minimum-output parameter. -/
def swap_quote_params (quote : SwapQuote) (slippage_percent : ℚ) :
    Except WErr (JVal × ℤ) :=
  match quote.errorField with
  | some ev =>
    if jtruthy ev then
      .error (.quoteUnavailable "Puzzle Swap API error")
    else
      match quote.parametersField with
      | none => .error (.quoteUnavailable "Missing swap parameters in API response")
      | some pv =>
        if !jtruthy pv then .error (.quoteUnavailable "Missing swap parameters in API response")
        else
          .ok (pv, min_output_amount (quote.estimatedOut.getD 0) slippage_percent)
  | none =>
    match quote.parametersField with
    | none => .error (.quoteUnavailable "Missing swap parameters in API response")
    | some pv =>
      if !jtruthy pv then .error (.quoteUnavailable "Missing swap parameters in API response")
      else
        .ok (pv, min_output_amount (quote.estimatedOut.getD 0) slippage_percent)

/-- The swap invocation built from the resolved input asset, the base-unit
input amount, the route blob, and the minimum-output parameter: the native
asset is submitted with a null payment asset id. -/
def swapSubmission (input_asset_id : String) (amount_in_smallest_unit : ℤ)
    (route : JVal) (minOut : ℤ) : Submission where
  dapp := puzzleSwapDapp
  fn := "swap"
  params := [("string", route), ("integer", .num (minOut : ℚ))]
  payments := [(if pyLower input_asset_id != "waves" then some input_asset_id else none,
                amount_in_smallest_unit)]

/-- Model of WavesUsdtTools.puzzle_swap_tokens up to submission.  In order:
both token references are resolved through the registry heuristics; the
signing key is checked; the input asset's decimals are resolved (8 for the
native token, otherwise a lookup that may raise); the input amount is
converted to base units by int(); the input-token balance and, separately,
the native fee reserve are checked against the soft-failure getters; the
route quote is fetched (a transport failure raises); and the quote is
turned into the swap invocation. -/
def puzzle_swap_tokens (hasKey : Bool) (input_amount : ℚ)
    (input_token output_token : String) (slippage_percent : ℚ) (tx_fee : ℤ)
    (wavesQuery : Except String ℤ) (tokenQuery : Except String (ℤ × ℕ))
    (inputDecimalsQuery : Except String ℕ)
    (quoteResult : Except String SwapQuote) : Except WErr Submission :=
  match resolve_swap_token input_token with
  | .error e => .error e
  | .ok input_asset_id =>
    match resolve_swap_token output_token with
    | .error e => .error e
    | .ok _output_asset_id =>
      if !hasKey then .error .noSigningKey
      else
        match
          (if pyLower input_asset_id = "waves" then .ok 8 else inputDecimalsQuery :
            Except String ℕ) with
        | .error e => .error (.raised ("Failed to swap tokens: " ++ e))
        | .ok asset_decimals =>
          let amount_in_smallest_unit := pyInt (input_amount * 10 ^ asset_decimals)
          let user_balance := get_wallet_token_balance input_asset_id wavesQuery tokenQuery
          if user_balance < input_amount then
            .error (.insufficientBalance input_token input_amount user_balance)
          else
            let tx_fee_in_waves := base_to_human tx_fee 8
            let waves_balance := get_wallet_waves_balance wavesQuery
            if waves_balance < tx_fee_in_waves then
              .error (.insufficientBalance "WAVES fee" tx_fee_in_waves waves_balance)
            else
              match quoteResult with
              | .error e => .error (.raised ("Network error: " ++ e))
              | .ok quote =>
                match swap_quote_params quote slippage_percent with
                | .error e => .error e
                | .ok (route, minOut) =>
                  .ok (swapSubmission input_asset_id amount_in_smallest_unit route minOut)

/-!
Helper lemmas shared by the claim theorems.
-/

/-- Uppercasing preserves string length. -/
theorem pyUpper_length (s : String) : (pyUpper s).length = s.length :=
  List.length_map s.data Char.toUpper

/-- The boolean USDT filter unfolded to its propositional form. -/
theorem isUsdtAsset_iff (a : MarketAsset) :
    isUsdtAsset a = true ↔
      (pyStartsWith a.supply.name "USDT" = true ∧ a.supply.id ≠ oldUsdtAssetId) := by
  simp [isUsdtAsset, Bool.and_eq_true, bne_iff_ne]

/-- Filtering then mapping is the same as flat-mapping singletons guarded by
the filter. -/
theorem filter_map_eq_flatMap {α β : Type} (p : α → Bool) (f : α → β) (l : List α) :
    (l.filter p).map f = l.flatMap (fun a => if p a = true then [f a] else []) := by
  induction l with
  | nil => rfl
  | cons a t ih =>
    by_cases h : p a = true
    · simp [List.filter_cons, h, ih]
    · simp [List.filter_cons, h, ih]

/-- The token-table search loop returns the identifier of the first entry
whose name matches, in iteration order. -/
theorem lookup_token_eq_find (q : String) (l : List (String × String)) :
    lookup_token q l = (l.find? (fun e => token_name_matches q e.2)).map Prod.fst := by
  induction l with
  | nil => rfl
  | cons hd tl ih =>
    obtain ⟨aid, nm⟩ := hd
    by_cases h : token_name_matches q nm = true
    · simp [lookup_token, h]
    · simp [lookup_token, h, ih]

/-- C6: for every base-unit quantity q and decimal count d handled by the
toolkit's unit conversions, converting to human units (q / 10 ^ d) and back
is the identity: the floor of the human value times 10 ^ d is q again. -/
theorem base_unit_roundtrip (q : ℤ) (d : ℕ) :
    ⌊base_to_human q d * 10 ^ d⌋ = q := by
  unfold base_to_human
  rw [div_mul_cancel₀]
  · exact Int.floor_intCast q
  · positivity

/-- C4: in the stable-asset listing built from valid market payloads, each
asset occurrence of each market contributes exactly one row when its supply
name starts with USDT and its supply id is not the excluded legacy
identifier, and no row otherwise; and every built row carries the supply
APY computed as the raw quantity divided by 10 ^ (decimals - 2). -/
theorem usdt_listing_spec (markets : List Market) :
    get_puzzle_lend_usdt_pools markets =
      markets.flatMap (fun m => m.assets.flatMap (fun a =>
        if pyStartsWith a.supply.name "USDT" = true ∧ a.supply.id ≠ oldUsdtAssetId
        then [mkUsdtAssetInfo m a] else [])) ∧
    (∀ (m : Market) (a : MarketAsset),
       (mkUsdtAssetInfo m a).market_supply_apy =
         a.supplyApy.quantity / (10 : ℚ) ^ ((a.supplyApy.decimals : ℤ) - 2)) := by
  constructor
  · unfold get_puzzle_lend_usdt_pools
    refine List.flatMap_congr ?_
    intro m _
    rw [filter_map_eq_flatMap]
    refine List.flatMap_congr ?_
    intro a _
    by_cases h : isUsdtAsset a = true
    · rw [if_pos h, if_pos ((isUsdtAsset_iff a).mp h)]
    · rw [if_neg h, if_neg (fun hp => h ((isUsdtAsset_iff a).mpr hp))]
  · intro m a
    rfl

/-- Any successful quote processing carries the minimum-output amount
computed from the (defaulted) estimated output and the slippage. -/
theorem swap_quote_params_ok_snd (q : SwapQuote) (s : ℚ) (pr : JVal × ℤ)
    (h : swap_quote_params q s = .ok pr) :
    pr.2 = min_output_amount (q.estimatedOut.getD 0) s := by
  unfold swap_quote_params at h
  repeat' split at h
  all_goals simp_all
  all_goals rw [← h]

/-- Any successful swap submission carries the route blob and the
minimum-output amount as its two typed parameters. -/
theorem puzzle_swap_tokens_ok_params (hk : Bool) (input_amount : ℚ)
    (input_token output_token : String) (s : ℚ) (tx_fee : ℤ)
    (wq : Except String ℤ) (tq : Except String (ℤ × ℕ)) (idq : Except String ℕ)
    (quote : SwapQuote) (sub : Submission)
    (h : puzzle_swap_tokens hk input_amount input_token output_token s tx_fee wq tq idq
           (.ok quote) = .ok sub) :
    ∃ route, sub.params =
      [("string", route),
       ("integer", JVal.num ((min_output_amount (quote.estimatedOut.getD 0) s : ℤ) : ℚ))] := by
  unfold puzzle_swap_tokens at h
  dsimp only at h
  repeat' split at h
  all_goals try exact Except.noConfusion h
  rename_i x route minOut heq
  injection h with h2
  subst h2
  refine ⟨route, ?_⟩
  have h3 := swap_quote_params_ok_snd _ _ _ heq
  simp only at h3
  simp [swapSubmission, h3]

/-- C5: the minimum-output parameter passed to the swap invocation equals
the floor of estimatedOut * (1 - slippagePercent / 100) (for the
nonnegative estimates and slippage percentages a swap can see), in
particular 995000 for slippage 0.5 and estimated output 1000000; and every
successful swap submission carries exactly that value as its integer
parameter. -/
theorem swap_min_output_spec :
    (∀ est s : ℚ, 0 ≤ est → 0 ≤ s → s ≤ 100 →
       min_output_amount est s = ⌊est * (1 - s / 100)⌋) ∧
    min_output_amount 1000000 (1/2) = 995000 ∧
    (∀ (hk : Bool) (input_amount : ℚ) (input_token output_token : String)
       (s : ℚ) (tx_fee : ℤ) (wq : Except String ℤ) (tq : Except String (ℤ × ℕ))
       (idq : Except String ℕ) (quote : SwapQuote) (sub : Submission),
       puzzle_swap_tokens hk input_amount input_token output_token s tx_fee wq tq idq
           (.ok quote) = .ok sub →
       ∃ route, sub.params =
         [("string", route),
          ("integer", JVal.num ((min_output_amount (quote.estimatedOut.getD 0) s : ℤ) : ℚ))]) := by
  refine ⟨?_, ?_, ?_⟩
  · intro est s h1 h2 h3
    have hx : 0 ≤ est * (1 - s / 100) := mul_nonneg h1 (by linarith)
    unfold min_output_amount pyInt
    rw [if_neg (not_lt.mpr hx)]
  · norm_num [min_output_amount, pyInt]
  · intro hk input_amount input_token output_token s tx_fee wq tq idq quote sub h
    exact puzzle_swap_tokens_ok_params hk input_amount input_token output_token s tx_fee
      wq tq idq quote sub h

/-- Witness for C5: at estimated output 1000000 and slippage 0.5 the
computed minimum output is the floor of 1000000 * 0.995, namely 995000. -/
theorem swap_min_output_spec_witness :
    min_output_amount 1000000 (1/2) = ⌊(1000000 : ℚ) * (1 - (1/2) / 100)⌋ ∧
    min_output_amount 1000000 (1/2) = 995000 :=
  ⟨swap_min_output_spec.1 1000000 (1/2) (by norm_num) (by norm_num) (by norm_num),
   swap_min_output_spec.2.1⟩

/-- A zero estimated output yields a zero minimum-output parameter,
whatever the slippage setting. -/
theorem min_output_amount_zero (s : ℚ) : min_output_amount 0 s = 0 := by
  unfold min_output_amount pyInt
  rw [zero_mul]
  norm_num

/-- C10: a route-quote response with a non-empty parameters field, no
truthy error field and no estimatedOut field does not fail the swap: the
estimated output defaults to 0, the minimum-output parameter is computed as
0, and (whenever the resolution, signing-key and balance gates that precede
the quote all pass) the swap invocation is submitted with that zero
minimum output, i.e. with no slippage protection. -/
theorem swap_missing_estimate_zero_protection :
    (∀ (quote : SwapQuote) (s : ℚ) (pv : JVal),
       quote.parametersField = some pv → jtruthy pv = true →
       (∀ ev, quote.errorField = some ev → jtruthy ev = false) →
       quote.estimatedOut = none →
       swap_quote_params quote s = .ok (pv, 0)) ∧
    (∀ (input_amount : ℚ) (input_token output_token iid oid : String) (s : ℚ)
       (tx_fee : ℤ) (wq : Except String ℤ) (tq : Except String (ℤ × ℕ))
       (idq : Except String ℕ) (quote : SwapQuote) (route : JVal) (minOut : ℤ) (d : ℕ),
       resolve_swap_token input_token = .ok iid →
       resolve_swap_token output_token = .ok oid →
       (if pyLower iid = "waves" then Except.ok 8 else idq) = .ok d →
       ¬ get_wallet_token_balance iid wq tq < input_amount →
       ¬ get_wallet_waves_balance wq < base_to_human tx_fee 8 →
       swap_quote_params quote s = .ok (route, minOut) →
       puzzle_swap_tokens true input_amount input_token output_token s tx_fee wq tq idq
           (.ok quote) =
         .ok (swapSubmission iid (pyInt (input_amount * 10 ^ d)) route minOut)) := by
  constructor
  · intro quote s pv hp hpt herr hest
    unfold swap_quote_params
    have hz : min_output_amount (quote.estimatedOut.getD 0) s = 0 := by
      rw [hest]
      exact min_output_amount_zero s
    cases he : quote.errorField with
    | none => rw [hp]; simp [hpt, hz]
    | some ev => rw [hp]; simp [herr ev he, hpt, hz]
  · intro input_amount input_token output_token iid oid s tx_fee wq tq idq quote route
      minOut d h1 h2 hd hb1 hb2 hq
    unfold puzzle_swap_tokens
    rw [h1, h2]
    simp [hd, hb1, hb2, hq]

/-- Witness for C10: a concrete quote carrying route parameters but no
estimatedOut lets the swap submit with a zero minimum output. -/
theorem swap_missing_estimate_zero_protection_witness :
    swap_quote_params ⟨none, some (.str "route-blob"), none⟩ (1/2) =
      .ok (.str "route-blob", 0) ∧
    puzzle_swap_tokens true 10 "USDTIDENTIFIER9wc3LX" "WAVES" (1/2) 500000
        (.ok 100000000) (.ok (1000000000, 6)) (.ok 6)
        (.ok ⟨none, some (.str "route-blob"), none⟩) =
      .ok (swapSubmission "USDTIDENTIFIER9wc3LX" (pyInt (10 * 10 ^ 6))
            (.str "route-blob") 0) := by
  have h1 := swap_missing_estimate_zero_protection.1
    ⟨none, some (.str "route-blob"), none⟩ (1/2) (.str "route-blob") rfl rfl
    (by intro ev h; cases h) rfl
  refine ⟨h1, ?_⟩
  refine swap_missing_estimate_zero_protection.2 10 "USDTIDENTIFIER9wc3LX" "WAVES"
    "USDTIDENTIFIER9wc3LX" "WAVES" (1/2) 500000 (.ok 100000000) (.ok (1000000000, 6))
    (.ok 6) ⟨none, some (.str "route-blob"), none⟩ (.str "route-blob") 0 6
    rfl rfl (by rw [if_neg (by decide)]) ?_ ?_ h1
  · unfold get_wallet_token_balance
    rw [if_neg (by decide)]
    norm_num [base_to_human]
  · unfold get_wallet_waves_balance
    norm_num [base_to_human]

/-- C1: with a signing key configured, whenever the available balance (as
the pre-check reads it) is short — for the native asset, below amount plus
the estimated fee; for any other asset, the token balance below the amount
or the native balance below the fee — the supply operation ends in an
insufficient-balance error reporting a required amount above the available
one, and no submission is built, so zero calls reach the
transaction-submission endpoint. -/
theorem supply_insufficient_balance_no_submission
    (amount : ℚ) (assetId pool : String) (tx_fee : ℤ)
    (wq : Except String ℤ) (tq : Except String (ℤ × ℕ)) (dq : Except String ℕ) :
    (pyLower assetId = "waves" ∧
       get_wallet_token_balance assetId wq tq < amount + base_to_human tx_fee 8) ∨
    (pyLower assetId ≠ "waves" ∧
       (get_wallet_token_balance assetId wq tq < amount ∨
        get_wallet_waves_balance wq < base_to_human tx_fee 8)) →
    ∃ lbl req avail,
      puzzle_lend_supply_assets true amount assetId pool tx_fee wq tq dq =
        .error (.insufficientBalance lbl req avail) ∧ avail < req := by
  intro h
  unfold puzzle_lend_supply_assets
  simp only [Bool.not_true]
  rcases h with ⟨hn, hlt⟩ | ⟨hn, hlt | hfee⟩
  · refine ⟨"WAVES", amount + base_to_human tx_fee 8,
      get_wallet_token_balance assetId wq tq, ?_, hlt⟩
    rw [if_neg (by decide), if_pos hn, if_pos hlt]
  · refine ⟨assetId, amount, get_wallet_token_balance assetId wq tq, ?_, hlt⟩
    rw [if_neg (by decide), if_neg hn, if_pos hlt]
  · by_cases hlt : get_wallet_token_balance assetId wq tq < amount
    · refine ⟨assetId, amount, get_wallet_token_balance assetId wq tq, ?_, hlt⟩
      rw [if_neg (by decide), if_neg hn, if_pos hlt]
    · refine ⟨"WAVES fee", base_to_human tx_fee 8, get_wallet_waves_balance wq, ?_, hfee⟩
      rw [if_neg (by decide), if_neg hn, if_neg hlt, if_pos hfee]

/-- Witness for C1: supplying 10 units of a non-native token with a token
balance of 5 fails with the insufficient-balance error before any
submission. -/
theorem supply_insufficient_balance_no_submission_witness :
    ∃ lbl req avail,
      puzzle_lend_supply_assets true 10 "USDT-ERC20-PPT" "3PPOOL" 500000
          (.ok 100000000) (.ok (5000000, 6)) (.ok 6) =
        .error (.insufficientBalance lbl req avail) ∧ avail < req := by
  refine supply_insufficient_balance_no_submission 10 "USDT-ERC20-PPT" "3PPOOL" 500000
    (.ok 100000000) (.ok (5000000, 6)) (.ok 6) (Or.inr ⟨by decide, Or.inl ?_⟩)
  unfold get_wallet_token_balance
  rw [if_neg (by decide)]
  norm_num [base_to_human]

/-- C2: with a signing key and a native balance covering the fee, a
withdraw request for a (pool, asset) pair with no matching supplied
position fails with the position-not-found error, and one whose first
matching position holds less than the requested amount fails with the
insufficient-supplied-balance error; both failures happen before any
submission is built. -/
theorem withdraw_position_checks (amount : ℚ) (assetId pool : String)
    (tx_fee : ℤ) (wq : Except String ℤ) (ps : List SuppliedPosition)
    (dq : Except String ℕ) :
    base_to_human tx_fee 8 ≤ get_wallet_waves_balance wq →
    (ps.find? (positionMatches pool assetId) = none →
       puzzle_lend_withdraw_assets true amount assetId pool tx_fee wq (.ok ps) dq =
         .error (.positionNotFound assetId pool)) ∧
    (∀ p, ps.find? (positionMatches pool assetId) = some p →
       p.wallet_supply < amount →
       puzzle_lend_withdraw_assets true amount assetId pool tx_fee wq (.ok ps) dq =
         .error (.insufficientSuppliedBalance amount p.wallet_supply)) := by
  intro hfee
  constructor
  · intro hnone
    unfold puzzle_lend_withdraw_assets
    rw [if_neg (by decide), if_neg (not_lt.mpr hfee)]
    simp [hnone]
  · intro p hfind hlt
    unfold puzzle_lend_withdraw_assets
    rw [if_neg (by decide), if_neg (not_lt.mpr hfee)]
    simp [hfind, hlt]

/-- Witness for C2: with a supplied position of 5.0 for the exact (pool,
asset) pair, requesting a withdrawal of 10.0 fails with the
insufficient-supplied-balance error before any submission. -/
theorem withdraw_position_checks_witness :
    puzzle_lend_withdraw_assets true 10 "USDT-ASSET-ID" "3PPOOL" 500000
        (.ok 100000000) (.ok [⟨"3PPOOL", "USDT-ASSET-ID", 5⟩]) (.ok 6) =
      .error (.insufficientSuppliedBalance 10 5) := by
  refine (withdraw_position_checks 10 "USDT-ASSET-ID" "3PPOOL" 500000
    (.ok 100000000) [⟨"3PPOOL", "USDT-ASSET-ID", 5⟩] (.ok 6) ?_).2
    ⟨"3PPOOL", "USDT-ASSET-ID", 5⟩ rfl (by norm_num)
  unfold get_wallet_waves_balance
  norm_num [base_to_human]

/-- C8: every invocation result carries a success flag; a provider-reported
transaction error yields a normal result with success false and the
provider's message copied verbatim, without raising; and a raised failure
only ever comes from a missing signing key, a failed payment-asset
resolution, or the submission call itself raising — so callers distinguish
could-not-attempt (a raised error) from attempted-and-rejected (success
false). -/
theorem invoke_script_two_tier :
    (∀ (lookup : String → Except String ℕ) (payments : List (Option String × PyNum))
       (tx_fee : ℤ) (tx : TxResponse) (pps : List (Option String × PyNum)),
       process_payments lookup payments = .ok pps →
       invoke_script true lookup payments tx_fee (.ok tx) =
         .ok { success := tx.error.isNone
               transaction_id := tx.id.getD "Unknown"
               fee := base_to_human tx_fee 8
               error := tx.error
               timestamp := tx.timestamp.getD 0 }) ∧
    (∀ (hk : Bool) (lookup : String → Except String ℕ)
       (payments : List (Option String × PyNum)) (tx_fee : ℤ)
       (sr : Except String TxResponse) (e : String),
       invoke_script hk lookup payments tx_fee sr = .error e →
       hk = false ∨ (∃ e2, process_payments lookup payments = .error e2) ∨
         ∃ e3, sr = .error e3) := by
  constructor
  · intro lookup payments tx_fee tx pps hp
    unfold invoke_script
    rw [if_neg (by decide)]
    simp [hp]
  · intro hk lookup payments tx_fee sr e h
    unfold invoke_script at h
    cases hk with
    | false => exact Or.inl rfl
    | true =>
      rw [if_neg (by decide)] at h
      refine Or.inr ?_
      cases hp : process_payments lookup payments with
      | error e2 => exact Or.inl ⟨e2, rfl⟩
      | ok pps =>
        rw [hp] at h
        cases hs : sr with
        | error e3 => exact Or.inr ⟨e3, rfl⟩
        | ok tx => rw [hs] at h; exact Except.noConfusion h

/-- Witness for C8: a provider reply carrying a transaction-level error
message produces a returned result with success false and the message
verbatim, not a raised failure. -/
theorem invoke_script_two_tier_witness :
    invoke_script true (fun _ => .ok 6) [] 500000
        (.ok ⟨some "mockTxId123456789", some 1678900000000,
              some "Transaction validation failed: Insufficient funds"⟩) =
      .ok { success := false
            transaction_id := "mockTxId123456789"
            fee := base_to_human 500000 8
            error := some "Transaction validation failed: Insufficient funds"
            timestamp := 1678900000000 } :=
  invoke_script_two_tier.1 (fun _ => .ok 6) [] 500000
    ⟨some "mockTxId123456789", some 1678900000000,
     some "Transaction validation failed: Insufficient funds"⟩ [] rfl

/-- C7: token resolution — an input equal to WAVES up to case resolves to
the native sentinel; any other input shorter than 15 characters is resolved
as a name by a case-insensitive exact-or-prefix match against the static
token table, first table entry winning, with a raised error on resolution
failure; and any input of 15 or more characters is passed through unchanged
as an already-resolved identifier. -/
theorem token_resolution_spec (t : String) :
    (pyUpper t = "WAVES" → resolve_swap_token t = .ok "WAVES") ∧
    (t.length < 15 → pyUpper t ≠ "WAVES" →
       resolve_swap_token t =
         match (TOKENS.find? (fun e => token_name_matches t e.2)).map Prod.fst with
         | some aid => .ok aid
         | none => .error (.raised ("Could not resolve token name: " ++ t))) ∧
    (15 ≤ t.length → resolve_swap_token t = .ok t) := by
  refine ⟨?_, ?_, ?_⟩
  · intro h
    have hlu := pyUpper_length t
    rw [h] at hlu
    have hlen : t.length < 15 := by
      have h5 : ("WAVES" : String).length = 5 := rfl
      omega
    have hg : get_asset_id_by_name t = some "WAVES" := by
      unfold get_asset_id_by_name
      rw [if_pos h]
    unfold resolve_swap_token
    rw [if_pos hlen, hg]
  · intro hlen hne
    have hg : get_asset_id_by_name t =
        (TOKENS.find? (fun e => token_name_matches t e.2)).map Prod.fst := by
      unfold get_asset_id_by_name
      rw [if_neg hne, lookup_token_eq_find]
    unfold resolve_swap_token
    rw [if_pos hlen, hg]
  · intro h
    unfold resolve_swap_token
    rw [if_neg (not_lt.mpr h)]

/-- Witness for C7: waves in lower case resolves to the native sentinel,
and a 62-character opaque string is returned unchanged. -/
theorem token_resolution_spec_witness :
    resolve_swap_token "waves" = .ok "WAVES" ∧
    resolve_swap_token "Qmxxxxxxxxxxxxxxxxxxxxxxxxxxxxxxxxxxxxxxxxxxxxxxxxxxxxxxxxxxxx" =
      .ok "Qmxxxxxxxxxxxxxxxxxxxxxxxxxxxxxxxxxxxxxxxxxxxxxxxxxxxxxxxxxxxx" :=
  ⟨(token_resolution_spec "waves").1 (by decide),
   (token_resolution_spec "Qmxxxxxxxxxxxxxxxxxxxxxxxxxxxxxxxxxxxxxxxxxxxxxxxxxxxxxxxxxxxx").2.2
     (by decide)⟩

/-- Counterexample for C9: the supply pre-check reads its balance through
the zero-on-failure helper, so a failed token balance query is treated as
an available balance of 0 and surfaces as an insufficient-balance error —
not as the query error the claim requires a raising variant to produce. -/
theorem soft_balance_used_in_precheck_counterexample :
    get_wallet_token_balance "USDT-ASSET-ID" (.ok 100000000)
        (.error "balance query failed") = 0 ∧
    puzzle_lend_supply_assets true 10 "USDT-ASSET-ID" "3PPOOL" 500000
        (.ok 100000000) (.error "balance query failed") (.ok 6) =
      .error (.insufficientBalance "USDT-ASSET-ID" 10 0) :=
  ⟨rfl, rfl⟩

/-- C9 as amended: the soft-failure balance getters return 0 instead of
raising on any failure, and the pre-transaction balance checks of supply,
withdraw and swap consume those zero-on-failure getters, so a failed
balance query is treated as a zero available balance and surfaces as an
insufficient-balance error (still blocking submission) rather than as a
query error. -/
theorem soft_balance_helpers_feed_prechecks :
    (∀ e, get_wallet_waves_balance (.error e) = 0) ∧
    (∀ assetId e e2, get_wallet_token_balance assetId (.error e) (.error e2) = 0) ∧
    (∀ (amount : ℚ) (assetId pool : String) (tx_fee : ℤ) (wq : Except String ℤ)
       (e : String) (dq : Except String ℕ),
       pyLower assetId ≠ "waves" → 0 < amount →
       puzzle_lend_supply_assets true amount assetId pool tx_fee wq (.error e) dq =
         .error (.insufficientBalance assetId amount 0)) ∧
    (∀ (amount : ℚ) (assetId pool : String) (tx_fee : ℤ) (e : String)
       (psq : Except String (List SuppliedPosition)) (dq : Except String ℕ),
       0 < base_to_human tx_fee 8 →
       puzzle_lend_withdraw_assets true amount assetId pool tx_fee (.error e) psq dq =
         .error (.insufficientBalance "WAVES fee" (base_to_human tx_fee 8) 0)) ∧
    (∀ (input_amount : ℚ) (input_token output_token iid oid : String) (s : ℚ)
       (tx_fee : ℤ) (wq : Except String ℤ) (e2 : String) (d : ℕ)
       (qr : Except String SwapQuote),
       resolve_swap_token input_token = .ok iid →
       resolve_swap_token output_token = .ok oid →
       pyLower iid ≠ "waves" → 0 < input_amount →
       puzzle_swap_tokens true input_amount input_token output_token s tx_fee wq
           (.error e2) (.ok d) qr =
         .error (.insufficientBalance input_token input_amount 0)) := by
  refine ⟨fun e => rfl, ?_, ?_, ?_, ?_⟩
  · intro assetId e e2
    unfold get_wallet_token_balance
    split <;> rfl
  · intro amount assetId pool tx_fee wq e dq hn hpos
    have hb : get_wallet_token_balance assetId wq (.error e) = 0 := by
      unfold get_wallet_token_balance
      rw [if_neg hn]
    unfold puzzle_lend_supply_assets
    rw [if_neg (by decide)]
    simp only [hb]
    rw [if_neg hn, if_pos hpos]
  · intro amount assetId pool tx_fee e psq dq hpos
    unfold puzzle_lend_withdraw_assets
    rw [if_neg (by decide)]
    have hb : get_wallet_waves_balance (.error e) = 0 := rfl
    simp only [hb]
    rw [if_pos hpos]
  · intro input_amount input_token output_token iid oid s tx_fee wq e2 d qr h1 h2 hn hpos
    have hb : get_wallet_token_balance iid wq (.error e2) = 0 := by
      unfold get_wallet_token_balance
      rw [if_neg hn]
    unfold puzzle_swap_tokens
    rw [h1, h2]
    simp only [hb, Bool.not_true]
    rw [if_neg (by decide), if_neg hn]
    simp only []
    rw [if_pos hpos]

/-- Witness for the amended C9: a concrete supply call whose token balance
query fails is rejected as an insufficient balance of 0. -/
theorem soft_balance_helpers_feed_prechecks_witness :
    puzzle_lend_supply_assets true 10 "USDT-ASSET-ID" "3PPOOL" 500000
        (.ok 1) (.error "query failed") (.ok 6) =
      .error (.insufficientBalance "USDT-ASSET-ID" 10 0) :=
  soft_balance_helpers_feed_prechecks.2.2.1 10 "USDT-ASSET-ID" "3PPOOL" 500000
    (.ok 1) "query failed" (.ok 6) (by decide) (by norm_num)

/-- When every index of the market loop finishes without an escaping
exception, the collected markets are exactly the parsed ones in iteration
order. -/
theorem collectMarkets_of_forall (loads : String → Option JVal)
    (rs : List (Except String JVal)) (os : List (Option JVal))
    (h : List.Forall₂ (fun r o => processMarket loads r = .ok o) rs os) :
    collectMarkets loads rs = .ok (os.filterMap id) := by
  induction h with
  | nil => rfl
  | cons hro htl ih =>
    unfold collectMarkets
    rw [hro]
    rename_i r o rs2 os2
    cases o with
    | none => simpa using ih
    | some m => rw [ih]; simp

/-- Counterexample for C3: with index 0 parsing to a valid market and index
1 carrying the malformed payload whose result field is the string x, the
aggregation does not skip index 1 and return the remaining markets — the
attribute error escapes the loop and the whole call returns an error
result, discarding the markets of all other indices. -/
theorem markets_skip_counterexample :
    processMarket (fun s => if s = "m" then some (.obj [("name", .str "P")]) else none)
        (.ok (.obj [("result", .obj [("value", .str "m")])])) =
      .ok (some (.obj [("name", .str "P")])) ∧
    get_puzzle_lend_markets
        (fun s => if s = "m" then some (.obj [("name", .str "P")]) else none)
        (.ok (.obj [("result", .obj [("value", .str "m")])]))
        (.ok (.obj [("result", .str "x")]))
        (.ok (.obj [("result", .obj [("value", .str "m")])]))
        (.ok (.obj [("result", .obj [("value", .str "m")])]))
        (.ok (.obj [("result", .obj [("value", .str "m")])])) =
      .error "AttributeError: object has no attribute get" :=
  ⟨rfl, rfl⟩

/-- C3 as amended: the aggregation iterates exactly indices 0 through 4;
an index whose payload is malformed or error-carrying in one of the forms
the loop handles (payload not an object or lacking a result key; result
object without a truthy value; value string that fails to parse; parsed
pool data that is not an object or carries an error key) is skipped without
failing the whole call, while an evaluate-level failure, a non-object
result field or a truthy non-string value field aborts the whole call; over
indices that all finish without aborting, the parsed markets are returned
in order and the no-markets error is returned if and only if zero markets
parsed. -/
theorem markets_partial_success (loads : String → Option JVal)
    (r0 r1 r2 r3 r4 : Except String JVal) (o0 o1 o2 o3 o4 : Option JVal) :
    processMarket loads r0 = .ok o0 → processMarket loads r1 = .ok o1 →
    processMarket loads r2 = .ok o2 → processMarket loads r3 = .ok o3 →
    processMarket loads r4 = .ok o4 →
    get_puzzle_lend_markets loads r0 r1 r2 r3 r4 =
      (if ([o0, o1, o2, o3, o4].filterMap id).isEmpty then
         .error "No valid markets found"
       else .ok ([o0, o1, o2, o3, o4].filterMap id)) ∧
    (get_puzzle_lend_markets loads r0 r1 r2 r3 r4 = .error "No valid markets found" ↔
       [o0, o1, o2, o3, o4].filterMap id = []) := by
  intro h0 h1 h2 h3 h4
  have hc : collectMarkets loads [r0, r1, r2, r3, r4] =
      .ok ([o0, o1, o2, o3, o4].filterMap id) :=
    collectMarkets_of_forall loads _ _
      (List.Forall₂.cons h0 (List.Forall₂.cons h1 (List.Forall₂.cons h2
        (List.Forall₂.cons h3 (List.Forall₂.cons h4 List.Forall₂.nil)))))
  have hmain : get_puzzle_lend_markets loads r0 r1 r2 r3 r4 =
      (if ([o0, o1, o2, o3, o4].filterMap id).isEmpty then
         .error "No valid markets found"
       else .ok ([o0, o1, o2, o3, o4].filterMap id)) := by
    unfold get_puzzle_lend_markets
    rw [hc]
    rcases hL : [o0, o1, o2, o3, o4].filterMap id with _ | ⟨m, ms⟩
    · simp
    · simp
  refine ⟨hmain, ?_⟩
  rw [hmain]
  rcases hL : [o0, o1, o2, o3, o4].filterMap id with _ | ⟨m, ms⟩
  · simp
  · simp

/-- Witness for the amended C3: with indices 1 and 3 malformed in handled
forms (an unparseable value string; pool data carrying an error key), the
aggregation still returns the markets of indices 0, 2 and 4. -/
theorem markets_partial_success_witness :
    get_puzzle_lend_markets
        (fun s => if s = "m0" then some (.obj [("name", .str "P0")])
                  else if s = "m2" then some (.obj [("name", .str "P2")])
                  else if s = "m4" then some (.obj [("name", .str "P4")])
                  else if s = "err" then some (.obj [("error", .str "boom")])
                  else none)
        (.ok (.obj [("result", .obj [("value", .str "m0")])]))
        (.ok (.obj [("result", .obj [("value", .str "bad-json")])]))
        (.ok (.obj [("result", .obj [("value", .str "m2")])]))
        (.ok (.obj [("result", .obj [("value", .str "err")])]))
        (.ok (.obj [("result", .obj [("value", .str "m4")])])) =
      .ok [.obj [("name", .str "P0")], .obj [("name", .str "P2")],
           .obj [("name", .str "P4")]] := by
  have h := (markets_partial_success
    (fun s => if s = "m0" then some (.obj [("name", .str "P0")])
              else if s = "m2" then some (.obj [("name", .str "P2")])
              else if s = "m4" then some (.obj [("name", .str "P4")])
              else if s = "err" then some (.obj [("error", .str "boom")])
              else none)
    (.ok (.obj [("result", .obj [("value", .str "m0")])]))
    (.ok (.obj [("result", .obj [("value", .str "bad-json")])]))
    (.ok (.obj [("result", .obj [("value", .str "m2")])]))
    (.ok (.obj [("result", .obj [("value", .str "err")])]))
    (.ok (.obj [("result", .obj [("value", .str "m4")])]))
    (some (.obj [("name", .str "P0")])) none (some (.obj [("name", .str "P2")]))
    none (some (.obj [("name", .str "P4")]))
    rfl rfl rfl rfl rfl).1
  simpa using h
